import Mathlib

/-!
Verification development for the Ecohealth weather/air-quality dashboard.

Numeric model: Python floats are modelled as exact rationals (ℚ); Python
`int(x)` truncation is modelled by `pyInt`.  All definitions are shallow
embeddings of the functions in `src/weather_api.py`, `src/openai_helper.py`
and `src/database.py`; external HTTP calls, clock reads and random draws
are passed in explicitly as oracle inputs.
-/

namespace Ecohealth

/-- Python `int(x)`: truncation toward zero. -/
def pyInt (q : ℚ) : ℤ := if 0 ≤ q then ⌊q⌋ else -⌊-q⌋

/-! ### AQI calculator — `weather_api.py`, `calculate_aqi_from_pollutants` (lines 26–75) -/

/-- One EPA breakpoint tuple `(low_conc, high_conc, low_aqi, high_aqi)`. -/
structure Breakpoint where
  low_conc : ℚ
  high_conc : ℚ
  low_aqi : ℤ
  high_aqi : ℤ
deriving DecidableEq

/-- `pm25_breakpoints` table (lines 37–44). -/
def pm25_breakpoints : List Breakpoint :=
  [⟨0, 12.0, 0, 50⟩,
   ⟨12.1, 35.4, 51, 100⟩,
   ⟨35.5, 55.4, 101, 150⟩,
   ⟨55.5, 150.4, 151, 200⟩,
   ⟨150.5, 250.4, 201, 300⟩,
   ⟨250.5, 500.4, 301, 500⟩]

/-- `pm10_breakpoints` table (lines 46–53). -/
def pm10_breakpoints : List Breakpoint :=
  [⟨0, 54, 0, 50⟩,
   ⟨55, 154, 51, 100⟩,
   ⟨155, 254, 101, 150⟩,
   ⟨255, 354, 151, 200⟩,
   ⟨355, 424, 201, 300⟩,
   ⟨425, 604, 301, 500⟩]

/-- The linear interpolation
`((high_aqi - low_aqi) / (high_conc - low_conc)) * (concentration - low_conc) + low_aqi`
(line 58–59), before the `int(...)` truncation. -/
def interp (bp : Breakpoint) (c : ℚ) : ℚ :=
  ((bp.high_aqi : ℚ) - bp.low_aqi) / (bp.high_conc - bp.low_conc) * (c - bp.low_conc) + bp.low_aqi

/-- `calculate_pollutant_aqi(concentration, breakpoints)` (lines 55–60):
scan the breakpoints in order, return the truncated interpolation at the first
tuple whose concentration range contains the reading, else 500. -/
def calculate_pollutant_aqi (c : ℚ) : List Breakpoint → ℤ
  | [] => 500
  | bp :: rest =>
      if bp.low_conc ≤ c ∧ c ≤ bp.high_conc then pyInt (interp bp c)
      else calculate_pollutant_aqi c rest

/-- `calculate_aqi_from_pollutants(components)` (lines 26–75).  The `components`
dict is modelled as an association list; `'pm2_5' in components` /
`components['pm2_5']` become `List.lookup`. -/
def calculate_aqi_from_pollutants (components : List (String × ℚ)) : ℤ :=
  let aqi_values : List ℤ :=
    (match components.lookup "pm2_5" with
     | some c => [calculate_pollutant_aqi c pm25_breakpoints]
     | none => []) ++
    (match components.lookup "pm10" with
     | some c => [calculate_pollutant_aqi c pm10_breakpoints]
     | none => [])
  match aqi_values with
  | [] => 50
  | v :: vs => vs.foldl max v

/-! Well-formedness of a breakpoint table, satisfied by both concrete tables:
each tuple has a nondegenerate concentration span and AQI values in `[0, 500]`,
and consecutive tuples are strictly separated in concentration and
non-decreasing in AQI. -/

/-- A single well-formed breakpoint tuple. -/
def WFBp (bp : Breakpoint) : Prop :=
  bp.low_conc < bp.high_conc ∧ bp.low_aqi ≤ bp.high_aqi ∧ 0 ≤ bp.low_aqi ∧ bp.high_aqi ≤ 500

instance : DecidablePred WFBp := fun bp =>
  inferInstanceAs (Decidable (bp.low_conc < bp.high_conc ∧ bp.low_aqi ≤ bp.high_aqi ∧
    0 ≤ bp.low_aqi ∧ bp.high_aqi ≤ 500))

/-- A well-formed breakpoint table. -/
def GoodChain (bps : List Breakpoint) : Prop :=
  (∀ bp ∈ bps, WFBp bp) ∧
  bps.Chain' (fun a b => a.high_conc < b.low_conc ∧ a.high_aqi ≤ b.low_aqi)

instance : DecidablePred GoodChain := fun bps =>
  inferInstanceAs (Decidable ((∀ bp ∈ bps, WFBp bp) ∧
    bps.Chain' (fun (a b : Breakpoint) => a.high_conc < b.low_conc ∧ a.high_aqi ≤ b.low_aqi)))

/-- `c` lies inside some tuple's concentration domain. -/
def InDomain (bps : List Breakpoint) (c : ℚ) : Prop :=
  ∃ bp ∈ bps, bp.low_conc ≤ c ∧ c ≤ bp.high_conc

instance (bps : List Breakpoint) (c : ℚ) : Decidable (InDomain bps c) :=
  inferInstanceAs (Decidable (∃ bp ∈ bps, bp.low_conc ≤ c ∧ c ≤ bp.high_conc))

theorem goodChain_tail {bp : Breakpoint} {rest : List Breakpoint}
    (h : GoodChain (bp :: rest)) : GoodChain rest := by
  obtain ⟨hwf, hch⟩ := h
  exact ⟨fun b hb => hwf b (List.mem_cons_of_mem _ hb), hch.tail⟩

theorem goodChain_head_sep {bp : Breakpoint} {rest : List Breakpoint}
    (h : GoodChain (bp :: rest)) :
    ∀ bp' ∈ rest, bp.high_conc < bp'.low_conc ∧ bp.high_aqi ≤ bp'.low_aqi := by
  induction rest generalizing bp with
  | nil => intro bp' hbp'; exact absurd hbp' (List.not_mem_nil _)
  | cons b rs ih =>
      intro bp' hbp'
      obtain ⟨hwf, hch⟩ := h
      rw [List.chain'_cons] at hch
      rcases List.mem_cons.mp hbp' with h1 | h2
      · subst h1; exact hch.1
      · have hb : WFBp b := hwf b (List.mem_cons_of_mem _ (List.mem_cons_self _ _))
        have hrec := @ih b
          ⟨fun x hx => hwf x (List.mem_cons_of_mem _ hx), hch.2⟩ bp' h2
        exact ⟨lt_trans (lt_of_lt_of_le hch.1.1 (le_of_lt hb.1)) hrec.1,
               le_trans (le_trans hch.1.2 hb.2.1) hrec.2⟩

theorem pyInt_eq_floor {q : ℚ} (h : 0 ≤ q) : pyInt q = ⌊q⌋ := by
  simp [pyInt, h]

theorem interp_slope_nonneg {bp : Breakpoint} (h : WFBp bp) :
    0 ≤ ((bp.high_aqi : ℚ) - bp.low_aqi) / (bp.high_conc - bp.low_conc) := by
  apply div_nonneg
  · have : (bp.low_aqi : ℚ) ≤ bp.high_aqi := by exact_mod_cast h.2.1
    linarith
  · linarith [h.1]

theorem interp_mono {bp : Breakpoint} (h : WFBp bp) {c1 c2 : ℚ} (hc : c1 ≤ c2) :
    interp bp c1 ≤ interp bp c2 := by
  unfold interp
  have hs := interp_slope_nonneg h
  have : ((bp.high_aqi : ℚ) - bp.low_aqi) / (bp.high_conc - bp.low_conc) * (c1 - bp.low_conc)
      ≤ ((bp.high_aqi : ℚ) - bp.low_aqi) / (bp.high_conc - bp.low_conc) * (c2 - bp.low_conc) :=
    mul_le_mul_of_nonneg_left (by linarith) hs
  linarith

theorem interp_lb {bp : Breakpoint} (h : WFBp bp) {c : ℚ} (hc : bp.low_conc ≤ c) :
    (bp.low_aqi : ℚ) ≤ interp bp c := by
  have := interp_mono h hc
  have hlo : interp bp bp.low_conc = bp.low_aqi := by
    unfold interp; ring
  linarith [hlo ▸ this]

theorem interp_ub {bp : Breakpoint} (h : WFBp bp) {c : ℚ} (hc : c ≤ bp.high_conc) :
    interp bp c ≤ (bp.high_aqi : ℚ) := by
  have := interp_mono h hc
  have hhi : interp bp bp.high_conc = bp.high_aqi := by
    unfold interp
    have hne : bp.high_conc - bp.low_conc ≠ 0 := by
      have := h.1; intro h0; apply absurd this; linarith [sub_eq_zero.mp h0]
    field_simp
  linarith [hhi ▸ this]

/-- In-domain value of the truncated interpolation is within the tuple's AQI range. -/
theorem pyInt_interp_bounds {bp : Breakpoint} (h : WFBp bp) {c : ℚ}
    (h1 : bp.low_conc ≤ c) (h2 : c ≤ bp.high_conc) :
    bp.low_aqi ≤ pyInt (interp bp c) ∧ pyInt (interp bp c) ≤ bp.high_aqi := by
  have hlb := interp_lb h h1
  have hub := interp_ub h h2
  have hnn : (0 : ℚ) ≤ interp bp c := by
    have : (0 : ℚ) ≤ bp.low_aqi := by exact_mod_cast h.2.2.1
    linarith
  rw [pyInt_eq_floor hnn]
  constructor
  · exact Int.le_floor.mpr hlb
  · have : (⌊interp bp c⌋ : ℚ) ≤ bp.high_aqi := le_trans (Int.floor_le _) hub
    exact_mod_cast this

/-- If `c` lies in the domain of a tuple of a well-formed table, the scan
returns a value within that tuple's AQI range. -/
theorem calculate_pollutant_aqi_in_domain {bps : List Breakpoint} (hg : GoodChain bps)
    {bp : Breakpoint} (hmem : bp ∈ bps) {c : ℚ}
    (h1 : bp.low_conc ≤ c) (h2 : c ≤ bp.high_conc) :
    bp.low_aqi ≤ calculate_pollutant_aqi c bps ∧
    calculate_pollutant_aqi c bps ≤ bp.high_aqi := by
  induction bps with
  | nil => exact absurd hmem (List.not_mem_nil _)
  | cons b rest ih =>
      rcases List.mem_cons.mp hmem with rfl | hb
      · have hwf : WFBp bp := hg.1 bp (List.mem_cons_self _ _)
        simpa [calculate_pollutant_aqi, h1, h2] using pyInt_interp_bounds hwf h1 h2
      · have hsep := goodChain_head_sep hg bp hb
        have hnot : ¬ (b.low_conc ≤ c ∧ c ≤ b.high_conc) := by
          intro hcc
          exact absurd (lt_of_lt_of_le hsep.1 h1) (not_lt.mpr hcc.2)
        simpa [calculate_pollutant_aqi, hnot] using ih (goodChain_tail hg) hb

/-- For `c` outside every tuple's domain the scan falls through and returns 500. -/
theorem calculate_pollutant_aqi_off_domain {bps : List Breakpoint} {c : ℚ}
    (h : ¬ InDomain bps c) : calculate_pollutant_aqi c bps = 500 := by
  induction bps with
  | nil => rfl
  | cons b rest ih =>
      have hnot : ¬ (b.low_conc ≤ c ∧ c ≤ b.high_conc) := by
        intro hcc; exact h ⟨b, List.mem_cons_self _ _, hcc⟩
      have hrest : ¬ InDomain rest c := by
        rintro ⟨bp, hbp, hcc⟩; exact h ⟨bp, List.mem_cons_of_mem _ hbp, hcc⟩
      simpa [calculate_pollutant_aqi, hnot] using ih hrest

/-- The scan over a well-formed table always returns a value in `[0, 500]`. -/
theorem calculate_pollutant_aqi_range {bps : List Breakpoint} (hg : GoodChain bps) (c : ℚ) :
    0 ≤ calculate_pollutant_aqi c bps ∧ calculate_pollutant_aqi c bps ≤ 500 := by
  induction bps with
  | nil => exact ⟨by norm_num [calculate_pollutant_aqi], by norm_num [calculate_pollutant_aqi]⟩
  | cons b rest ih =>
      by_cases hcc : b.low_conc ≤ c ∧ c ≤ b.high_conc
      · have hwf : WFBp b := hg.1 b (List.mem_cons_self _ _)
        have hb := pyInt_interp_bounds hwf hcc.1 hcc.2
        simp only [calculate_pollutant_aqi, if_pos hcc]
        exact ⟨le_trans hwf.2.2.1 hb.1, le_trans hb.2 hwf.2.2.2⟩
      · simpa [calculate_pollutant_aqi, hcc] using ih (goodChain_tail hg)

/-- Monotonicity of the scan restricted to in-domain concentrations. -/
theorem calculate_pollutant_aqi_mono {bps : List Breakpoint} (hg : GoodChain bps)
    {c1 c2 : ℚ} (h1 : InDomain bps c1) (h2 : InDomain bps c2) (hc : c1 ≤ c2) :
    calculate_pollutant_aqi c1 bps ≤ calculate_pollutant_aqi c2 bps := by
  induction bps with
  | nil => exact le_refl _
  | cons b rest ih =>
      by_cases hb1 : b.low_conc ≤ c1 ∧ c1 ≤ b.high_conc
      · by_cases hb2 : b.low_conc ≤ c2 ∧ c2 ≤ b.high_conc
        · -- both in the head tuple: monotone interpolation
          have hwf : WFBp b := hg.1 b (List.mem_cons_self _ _)
          simp only [calculate_pollutant_aqi, if_pos hb1, if_pos hb2]
          have hm := interp_mono hwf hc
          have hnn1 : (0 : ℚ) ≤ interp b c1 := by
            have : (0 : ℚ) ≤ b.low_aqi := by exact_mod_cast hwf.2.2.1
            linarith [interp_lb hwf hb1.1]
          have hnn2 : (0 : ℚ) ≤ interp b c2 := le_trans hnn1 hm
          rw [pyInt_eq_floor hnn1, pyInt_eq_floor hnn2]
          exact Int.floor_le_floor hm
        · -- c1 in head, c2 in a later tuple
          obtain ⟨bp2, hbp2m, hbp2⟩ := h2
          have hbp2r : bp2 ∈ rest := by
            rcases List.mem_cons.mp hbp2m with h | h
            · subst h; exact absurd hbp2 hb2
            · exact h
          have hsep := goodChain_head_sep hg bp2 hbp2r
          have hwf : WFBp b := hg.1 b (List.mem_cons_self _ _)
          have hub : calculate_pollutant_aqi c1 (b :: rest) ≤ b.high_aqi := by
            simpa [calculate_pollutant_aqi, hb1] using (pyInt_interp_bounds hwf hb1.1 hb1.2).2
          have hnot2 : ¬ (b.low_conc ≤ c2 ∧ c2 ≤ b.high_conc) := hb2
          have hlb : bp2.low_aqi ≤ calculate_pollutant_aqi c2 (b :: rest) :=
            (calculate_pollutant_aqi_in_domain hg hbp2m hbp2.1 hbp2.2).1
          exact le_trans hub (le_trans hsep.2 hlb)
      · -- c1 in a later tuple, so c2 cannot be in the head tuple either
        obtain ⟨bp1, hbp1m, hbp1⟩ := h1
        have hbp1r : bp1 ∈ rest := by
          rcases List.mem_cons.mp hbp1m with h | h
          · subst h; exact absurd hbp1 hb1
          · exact h
        have hsep := goodChain_head_sep hg bp1 hbp1r
        have hc1big : b.high_conc < c1 := lt_of_lt_of_le hsep.1 hbp1.1
        have hb2 : ¬ (b.low_conc ≤ c2 ∧ c2 ≤ b.high_conc) := by
          intro hcc; exact absurd (lt_of_lt_of_le hc1big hc) (not_lt.mpr hcc.2)
        obtain ⟨bp2, hbp2m, hbp2⟩ := h2
        have hbp2r : bp2 ∈ rest := by
          rcases List.mem_cons.mp hbp2m with h | h
          · subst h; exact absurd hbp2 hb2
          · exact h
        simp only [calculate_pollutant_aqi, if_neg hb1, if_neg hb2]
        exact ih (goodChain_tail hg) ⟨bp1, hbp1r, hbp1⟩ ⟨bp2, hbp2r, hbp2⟩

theorem pm25_goodChain : GoodChain pm25_breakpoints := by
  simp only [GoodChain, WFBp, pm25_breakpoints, List.chain'_cons, List.chain'_singleton,
    List.mem_cons, List.not_mem_nil, or_false, forall_eq_or_imp, forall_eq]
  norm_num

theorem pm10_goodChain : GoodChain pm10_breakpoints := by
  simp only [GoodChain, WFBp, pm10_breakpoints, List.chain'_cons, List.chain'_singleton,
    List.mem_cons, List.not_mem_nil, or_false, forall_eq_or_imp, forall_eq]
  norm_num

/-- A zero pm2_5 concentration interpolates to AQI 0. -/
theorem calc_zero_pm25 : calculate_aqi_from_pollutants [("pm2_5", 0)] = 0 := by
  simp only [calculate_aqi_from_pollutants, List.lookup, calculate_pollutant_aqi,
    pm25_breakpoints, pm10_breakpoints, interp, pyInt,
    show ("pm2_5" == "pm2_5") = true from rfl, show ("pm10" == "pm2_5") = false from rfl]
  norm_num

/-- The full calculator always returns a value in `[0, 500]`. -/
theorem calculate_aqi_from_pollutants_range (components : List (String × ℚ)) :
    0 ≤ calculate_aqi_from_pollutants components ∧
    calculate_aqi_from_pollutants components ≤ 500 := by
  unfold calculate_aqi_from_pollutants
  rcases h25 : components.lookup "pm2_5" with _ | c25 <;>
    rcases h10 : components.lookup "pm10" with _ | c10
  · simp only [List.nil_append]
    exact ⟨by norm_num, by norm_num⟩
  · simpa only [List.nil_append, List.foldl_nil] using
      calculate_pollutant_aqi_range pm10_goodChain c10
  · simpa only [List.append_nil, List.foldl_nil] using
      calculate_pollutant_aqi_range pm25_goodChain c25
  · simp only [List.cons_append, List.nil_append, List.foldl_cons, List.foldl_nil]
    have h1 := calculate_pollutant_aqi_range pm25_goodChain c25
    have h2 := calculate_pollutant_aqi_range pm10_goodChain c10
    exact ⟨le_trans h1.1 (le_max_left _ _), max_le h1.2 h2.2⟩

/-! ### Claims C1, C2, C7, C10 — the AQI calculator -/

/-- C1 counterexample: the claim says the result is always in [1, 500], but a
well-formed reading of 0 µg/m³ for pm2_5 interpolates to AQI 0, below the
claimed lower bound. -/
theorem C1_counterexample :
    calculate_aqi_from_pollutants [("pm2_5", 0)] = 0 ∧
    ¬ (1 ≤ calculate_aqi_from_pollutants [("pm2_5", 0)]) :=
  ⟨calc_zero_pm25, by rw [calc_zero_pm25]; norm_num⟩

/-- C1 (amended): for every input mapping of pollutant names to well-formed
numeric concentrations, calculate_aqi_from_pollutants is total (the embedding
is a total function) and returns an integer in the range [0, 500] — the lower
bound 0, not 1, is attained at zero concentrations. -/
theorem C1_total_range (components : List (String × ℚ)) :
    0 ≤ calculate_aqi_from_pollutants components ∧
    calculate_aqi_from_pollutants components ≤ 500 :=
  calculate_aqi_from_pollutants_range components

/-- C2 counterexample: the pm2_5 breakpoint table has a gap between 12.0 and
12.1; a concentration of 12.05 falls through every tuple and is assigned 500,
while the larger concentration 12.1 is assigned 51, so the AQI is not
monotonically non-decreasing over all concentrations. -/
theorem C2_counterexample :
    (12.05 : ℚ) ≤ 12.1 ∧
    ¬ (calculate_pollutant_aqi 12.05 pm25_breakpoints ≤
       calculate_pollutant_aqi 12.1 pm25_breakpoints) := by
  have h1 : calculate_pollutant_aqi 12.05 pm25_breakpoints = 500 := by
    simp only [calculate_pollutant_aqi, pm25_breakpoints]
    norm_num
  have h2 : calculate_pollutant_aqi 12.1 pm25_breakpoints = 51 := by
    simp only [calculate_pollutant_aqi, pm25_breakpoints, interp, pyInt]
    norm_num
  refine ⟨by norm_num, ?_⟩
  rw [h1, h2]; norm_num

/-- C2 (amended): for a fixed pollutant type (pm2_5 or pm10), the per-pollutant
AQI is monotonically non-decreasing on concentrations that lie within some
breakpoint tuple's domain; monotonicity fails only for concentrations falling
in a gap between tuples (or below/above every tuple), which are sent to 500. -/
theorem C2_mono_in_domain (c1 c2 : ℚ) (hc : c1 ≤ c2) :
    (InDomain pm25_breakpoints c1 → InDomain pm25_breakpoints c2 →
      calculate_pollutant_aqi c1 pm25_breakpoints ≤ calculate_pollutant_aqi c2 pm25_breakpoints) ∧
    (InDomain pm10_breakpoints c1 → InDomain pm10_breakpoints c2 →
      calculate_pollutant_aqi c1 pm10_breakpoints ≤ calculate_pollutant_aqi c2 pm10_breakpoints) :=
  ⟨fun h1 h2 => calculate_pollutant_aqi_mono pm25_goodChain h1 h2 hc,
   fun h1 h2 => calculate_pollutant_aqi_mono pm10_goodChain h1 h2 hc⟩

/-- C2 witness: the amended monotonicity at the concrete pairs 5 ≤ 40 (pm2_5)
and 10 ≤ 100 (pm10), both in-domain. -/
theorem C2_witness :
    calculate_pollutant_aqi 5 pm25_breakpoints ≤ calculate_pollutant_aqi 40 pm25_breakpoints ∧
    calculate_pollutant_aqi 10 pm10_breakpoints ≤ calculate_pollutant_aqi 100 pm10_breakpoints := by
  constructor
  · exact (C2_mono_in_domain 5 40 (by norm_num)).1
      ⟨⟨0, 12.0, 0, 50⟩, by simp [pm25_breakpoints], by norm_num, by norm_num⟩
      ⟨⟨35.5, 55.4, 101, 150⟩, by simp [pm25_breakpoints], by norm_num, by norm_num⟩
  · exact (C2_mono_in_domain 10 100 (by norm_num)).2
      ⟨⟨0, 54, 0, 50⟩, by simp [pm10_breakpoints], by norm_num, by norm_num⟩
      ⟨⟨55, 154, 51, 100⟩, by simp [pm10_breakpoints], by norm_num, by norm_num⟩

/-- C7: for either breakpoint table, (i) a concentration inside a tuple's
domain yields an AQI within that tuple's [low_aqi, high_aqi] range, (ii) a
concentration outside every tuple's domain yields 500, and (iii) an input
mapping containing neither pm2_5 nor pm10 yields 50. -/
theorem C7_breakpoint_contract (bps : List Breakpoint)
    (hb : bps = pm25_breakpoints ∨ bps = pm10_breakpoints) (c : ℚ) :
    (∀ bp ∈ bps, bp.low_conc ≤ c → c ≤ bp.high_conc →
       bp.low_aqi ≤ calculate_pollutant_aqi c bps ∧
       calculate_pollutant_aqi c bps ≤ bp.high_aqi) ∧
    (¬ InDomain bps c → calculate_pollutant_aqi c bps = 500) ∧
    (∀ components : List (String × ℚ), components.lookup "pm2_5" = none →
       components.lookup "pm10" = none → calculate_aqi_from_pollutants components = 50) := by
  have hg : GoodChain bps := by
    rcases hb with rfl | rfl
    exacts [pm25_goodChain, pm10_goodChain]
  refine ⟨fun bp hmem h1 h2 => calculate_pollutant_aqi_in_domain hg hmem h1 h2,
          fun h => calculate_pollutant_aqi_off_domain h,
          fun components h25 h10 => ?_⟩
  unfold calculate_aqi_from_pollutants
  rw [h25, h10]
  rfl

/-- C7 witness: the contract at concrete inputs — 100 µg/m³ of pm2_5 lies in
the (55.5, 150.4, 151, 200) tuple and gets an AQI in [151, 200]; 1000 µg/m³ is
beyond every pm2_5 tuple and gets 500; a mapping with only ozone gets 50. -/
theorem C7_witness :
    (151 ≤ calculate_pollutant_aqi 100 pm25_breakpoints ∧
     calculate_pollutant_aqi 100 pm25_breakpoints ≤ 200) ∧
    calculate_pollutant_aqi 1000 pm25_breakpoints = 500 ∧
    calculate_aqi_from_pollutants [("o3", 5)] = 50 := by
  refine ⟨?_, ?_, ?_⟩
  · exact (C7_breakpoint_contract pm25_breakpoints (Or.inl rfl) 100).1
      ⟨55.5, 150.4, 151, 200⟩ (by simp [pm25_breakpoints]) (by norm_num) (by norm_num)
  · refine (C7_breakpoint_contract pm25_breakpoints (Or.inl rfl) 1000).2.1 ?_
    rintro ⟨bp, hmem, h1, h2⟩
    simp only [pm25_breakpoints, List.mem_cons, List.not_mem_nil, or_false] at hmem
    rcases hmem with rfl | rfl | rfl | rfl | rfl | rfl <;> norm_num at h1 h2
  · exact (C7_breakpoint_contract pm25_breakpoints (Or.inl rfl) 0).2.2 [("o3", 5)] rfl rfl

/-- C10: the calculator result depends only on the presence and values of the
pm2_5 and pm10 entries of the input mapping; any other pollutant entries are
ignored. -/
theorem C10_noninterference (comps1 comps2 : List (String × ℚ))
    (h25 : comps1.lookup "pm2_5" = comps2.lookup "pm2_5")
    (h10 : comps1.lookup "pm10" = comps2.lookup "pm10") :
    calculate_aqi_from_pollutants comps1 = calculate_aqi_from_pollutants comps2 := by
  unfold calculate_aqi_from_pollutants
  rw [h25, h10]

/-- C10 witness: two mappings agreeing on pm2_5 (present, 10) and pm10
(absent) but with different other pollutants give the same result. -/
theorem C10_witness :
    calculate_aqi_from_pollutants [("pm2_5", 10), ("o3", 99)] =
    calculate_aqi_from_pollutants [("no2", 1), ("pm2_5", 10), ("co", 3)] :=
  C10_noninterference _ _ rfl rfl

/-! ### Current-conditions fetcher — `weather_api.py`, `get_current_weather_and_aqi`
(lines 77–243).  The three HTTP calls are oracle inputs: `Except.error e`
models a raised exception (caught by the corresponding `except` block),
`Except.ok` a successful JSON response.  Optional JSON keys become `Option`. -/

/-- The `current` object of a successful Open-Meteo response (line 119); each
field is `None`-able exactly as `current.get(...)` is. -/
structure OpenMeteoCurrent where
  temperature_2m : Option ℚ
  apparent_temperature : Option ℚ
  relative_humidity_2m : Option ℚ
  wind_speed_10m : Option ℚ
  precipitation_probability : Option ℚ
  cloud_cover : Option ℚ
  pressure_msl : Option ℚ
  visibility : Option ℚ

/-- The `main` object of an OpenWeatherMap weather response (lines 167–171). -/
structure OWMMain where
  temp : Option ℚ
  feels_like : Option ℚ
  humidity : Option ℚ
  pressure : Option ℚ

/-- A successful OpenWeatherMap weather response (lines 167–183); outer
`Option` = key presence (`'main' in weather_data`), inner options = the
`.get(...)` results. -/
structure OWMWeather where
  main : Option OWMMain
  wind_speed : Option (Option ℚ)
  clouds_all : Option (Option ℚ)
  visibility : Option (Option ℚ)

/-- The result dictionary (lines 88–99): every field starts as `None`. -/
structure CurrentResult where
  temperature : Option ℚ
  temperature_apparent : Option ℚ
  humidity : Option ℚ
  wind_speed : Option ℚ
  precipitation_probability : Option ℚ
  cloud_cover : Option ℚ
  pressure : Option ℚ
  visibility : Option ℚ
  aqi : Option ℚ
  error : Option String

/-- The initial all-`None` result (lines 88–99). -/
def initResult : CurrentResult :=
  ⟨none, none, none, none, none, none, none, none, none, none⟩

/-- `result['error'] += ...` / `result['error'] = ...` (lines 187–190, 217–220). -/
def addError (e : Option String) (msg : String) : Option String :=
  match e with
  | some s => some (s ++ "\n" ++ msg)
  | none => some msg

/-- Phase A (lines 101–145): the Open-Meteo attempt.  `Except.ok none` models
a response whose `current` object is missing or empty (the `if current:`
guard fails and nothing is assigned). -/
def phaseA (om : Except String (Option OpenMeteoCurrent)) : CurrentResult :=
  match om with
  | .error e => { initResult with error := some ("Open-Meteo API error: " ++ e) }
  | .ok none => initResult
  | .ok (some current) =>
      { initResult with
        temperature := current.temperature_2m
        temperature_apparent := current.apparent_temperature
        humidity := current.relative_humidity_2m
        wind_speed := current.wind_speed_10m
        precipitation_probability := current.precipitation_probability
        cloud_cover := current.cloud_cover
        pressure := current.pressure_msl
        visibility := current.visibility.map (fun v => v / 1000) }

/-- `weather_success` (lines 102, 137–141): set only when the `current` object
is non-empty, and true when temperature, humidity and wind_speed are all
non-`None` — precipitation_probability is *not* checked. -/
def weather_success (om : Except String (Option OpenMeteoCurrent)) : Bool :=
  match om with
  | .ok (some current) =>
      current.temperature_2m.isSome && current.relative_humidity_2m.isSome &&
        current.wind_speed_10m.isSome
  | _ => false

/-- Phase B (lines 147–190): the OpenWeatherMap fallback, entered iff
`weather_success` is false.  A missing API key raises before the request
(lines 150–151), modelled by forcing the error branch. -/
def phaseB (r : CurrentResult) (owmKey : Bool) (owm : Except String OWMWeather) :
    CurrentResult :=
  match (if owmKey then owm else .error "OpenWeatherMap API key is missing") with
  | .error e => { r with error := addError r.error ("OpenWeatherMap API error: " ++ e) }
  | .ok w =>
      let r1 := match w.main with
        | some m =>
            { r with
              temperature := m.temp
              temperature_apparent := m.feels_like
              humidity := m.humidity
              pressure := m.pressure }
        | none => r
      let r2 := match w.wind_speed with
        | some ws => { r1 with wind_speed := ws }
        | none => r1
      let r3 := match w.clouds_all with
        | some ca => { r2 with cloud_cover := ca }
        | none => r2
      match w.visibility with
      | some (some v) => { r3 with visibility := some (v / 1000) }
      | _ => r3

/-- The AQI phase (lines 192–220): a successful response is modelled by the
`components` dicts of its `list` items; `.ok []` models a response with no
(or an empty) `list`.  The code uses `list[0]` and skips assignment when its
components dict is empty (`if components:`). -/
def phaseAqi (r : CurrentResult) (owmKey : Bool)
    (aqi : Except String (List (List (String × ℚ)))) : CurrentResult :=
  match (if owmKey then aqi else .error "OpenWeatherMap API key is missing") with
  | .error e => { r with error := addError r.error ("AQI API error: " ++ e) }
  | .ok [] => r
  | .ok (components :: _) =>
      if components = [] then r
      else { r with aqi := some ((calculate_aqi_from_pollutants components : ℤ) : ℚ) }

/-- The default-filling epilogue (lines 222–241).  Note the order: the
temperature default is applied before the apparent-temperature default, so a
missing feels-like falls back to the (possibly defaulted) temperature. -/
def fillDefaults (r : CurrentResult) : CurrentResult :=
  let t := r.temperature.getD 22.0
  { temperature := some t
    temperature_apparent := some (r.temperature_apparent.getD t)
    humidity := some (r.humidity.getD 50.0)
    wind_speed := some (r.wind_speed.getD 5.0)
    precipitation_probability := some (r.precipitation_probability.getD 0.0)
    cloud_cover := some (r.cloud_cover.getD 10.0)
    pressure := some (r.pressure.getD 1013.25)
    visibility := some (r.visibility.getD 10.0)
    aqi := some (r.aqi.getD 50.0)
    error := r.error }

/-- `get_current_weather_and_aqi(lat, lon)` (lines 77–243) as a function of
the three provider outcomes and the presence of the OpenWeatherMap key. -/
def get_current_weather_and_aqi (om : Except String (Option OpenMeteoCurrent))
    (owmKey : Bool) (owm : Except String OWMWeather)
    (aqi : Except String (List (List (String × ℚ)))) : CurrentResult :=
  let r1 := phaseA om
  let r2 := if weather_success om then r1 else phaseB r1 owmKey owm
  let r3 := phaseAqi r2 owmKey aqi
  fillDefaults r3

/-- The Open-Meteo phase never sets an AQI. -/
theorem phaseA_aqi (om : Except String (Option OpenMeteoCurrent)) :
    (phaseA om).aqi = none := by
  rcases om with e | (_ | c) <;> rfl

/-- The OpenWeatherMap fallback phase never touches the AQI field. -/
theorem phaseB_aqi (r : CurrentResult) (k : Bool) (w : Except String OWMWeather) :
    (phaseB r k w).aqi = r.aqi := by
  unfold phaseB
  cases (if k then w else Except.error "OpenWeatherMap API key is missing") with
  | error e => rfl
  | ok w' =>
      obtain ⟨m, ws, ca, vis⟩ := w'
      cases m <;> cases ws <;> cases ca <;> rcases vis with _ | (_ | v) <;> rfl

/-- The AQI phase either leaves the AQI field alone or stores the calculator's
value for some components mapping. -/
theorem phaseAqi_aqi (r : CurrentResult) (k : Bool)
    (a : Except String (List (List (String × ℚ)))) :
    (phaseAqi r k a).aqi = r.aqi ∨
    ∃ comps, (phaseAqi r k a).aqi =
      some ((calculate_aqi_from_pollutants comps : ℤ) : ℚ) := by
  unfold phaseAqi
  cases (if k then a else Except.error "OpenWeatherMap API key is missing") with
  | error e => exact Or.inl rfl
  | ok l =>
      match l with
      | [] => exact Or.inl rfl
      | comps :: rest =>
          by_cases h : comps = []
          · exact Or.inl (by simp [h])
          · exact Or.inr ⟨comps, by simp [h]⟩

/-! ### Claims C4 and C6 — the current-conditions fetcher -/

/-- C4 counterexample: with both weather providers failing and an air-pollution
response reporting a pm2_5 concentration of 0, the returned aqi is 0, outside
the claimed range [1, 500]. -/
theorem C4_counterexample :
    (get_current_weather_and_aqi (.error "boom") true (.error "boom")
      (.ok [[("pm2_5", 0)]])).aqi = some 0 ∧
    ¬ ∃ a, (get_current_weather_and_aqi (.error "boom") true (.error "boom")
      (.ok [[("pm2_5", 0)]])).aqi = some a ∧ 1 ≤ a ∧ a ≤ 500 := by
  have h : (get_current_weather_and_aqi (.error "boom") true (.error "boom")
      (.ok [[("pm2_5", 0)]])).aqi =
      some ((calculate_aqi_from_pollutants [("pm2_5", 0)] : ℤ) : ℚ) := by
    rfl
  rw [calc_zero_pm25] at h
  norm_num at h
  refine ⟨h, ?_⟩
  rintro ⟨a, ha, h1, _⟩
  rw [h] at ha
  injection ha with ha
  rw [← ha] at h1
  norm_num at h1

/-- C4 (amended): for every combination of provider outcomes, including total
provider failure, get_current_weather_and_aqi returns (the embedding is total),
every field of the result is non-null, provider errors appear only in the
error field, and the returned aqi lies in [0, 500] — the lower bound 0, not 1,
is attainable via a zero pollutant concentration. -/
theorem C4_always_populated (om : Except String (Option OpenMeteoCurrent))
    (owmKey : Bool) (owm : Except String OWMWeather)
    (aqi : Except String (List (List (String × ℚ)))) :
    (get_current_weather_and_aqi om owmKey owm aqi).temperature.isSome = true ∧
    (get_current_weather_and_aqi om owmKey owm aqi).temperature_apparent.isSome = true ∧
    (get_current_weather_and_aqi om owmKey owm aqi).humidity.isSome = true ∧
    (get_current_weather_and_aqi om owmKey owm aqi).wind_speed.isSome = true ∧
    (get_current_weather_and_aqi om owmKey owm aqi).precipitation_probability.isSome = true ∧
    (get_current_weather_and_aqi om owmKey owm aqi).cloud_cover.isSome = true ∧
    (get_current_weather_and_aqi om owmKey owm aqi).pressure.isSome = true ∧
    (get_current_weather_and_aqi om owmKey owm aqi).visibility.isSome = true ∧
    ∃ a, (get_current_weather_and_aqi om owmKey owm aqi).aqi = some a ∧
      0 ≤ a ∧ a ≤ 500 := by
  unfold get_current_weather_and_aqi
  refine ⟨rfl, rfl, rfl, rfl, rfl, rfl, rfl, rfl, ?_⟩
  set r2 := if weather_success om then phaseA om else phaseB (phaseA om) owmKey owm with hr2
  have hr2aqi : r2.aqi = none := by
    rw [hr2]
    split
    · exact phaseA_aqi om
    · rw [phaseB_aqi]; exact phaseA_aqi om
  rcases phaseAqi_aqi r2 owmKey aqi with h | ⟨comps, h⟩
  · refine ⟨50, ?_, by norm_num, by norm_num⟩
    show some ((phaseAqi r2 owmKey aqi).aqi.getD 50.0) = some 50
    rw [h, hr2aqi]
    norm_num
  · refine ⟨((calculate_aqi_from_pollutants comps : ℤ) : ℚ), ?_, ?_, ?_⟩
    · show some ((phaseAqi r2 owmKey aqi).aqi.getD 50.0) = _
      rw [h]
      rfl
    · exact_mod_cast (calculate_aqi_from_pollutants_range comps).1
    · exact_mod_cast (calculate_aqi_from_pollutants_range comps).2

/-- Line 148 (`if not weather_success:`): whether the fallback weather
provider phase is entered. -/
def provider_b_attempted (om : Except String (Option OpenMeteoCurrent)) : Bool :=
  ! weather_success om

/-- C6 counterexample: when Open-Meteo supplies temperature, humidity and
wind_speed but no precipitation_probability, one of the claimed core four
fields is missing after phase A, yet the fallback provider is not queried —
the code checks only three fields (lines 137–141). -/
theorem C6_counterexample :
    (phaseA (.ok (some ⟨some 20, some 19, some 50, some 3, none, some 10,
      some 1000, some 5000⟩))).precipitation_probability = none ∧
    provider_b_attempted (.ok (some ⟨some 20, some 19, some 50, some 3, none,
      some 10, some 1000, some 5000⟩)) = false :=
  ⟨rfl, rfl⟩

/-- C6 (amended): the fallback weather provider phase is entered if and only
if at least one of the core *three* fields — temperature, humidity,
wind_speed — is missing after the Open-Meteo phase;
precipitation_probability is not part of the check. -/
theorem C6_fallback_iff (om : Except String (Option OpenMeteoCurrent)) :
    provider_b_attempted om = true ↔
    ((phaseA om).temperature = none ∨ (phaseA om).humidity = none ∨
     (phaseA om).wind_speed = none) := by
  rcases om with e | (_ | c)
  · simp [provider_b_attempted, weather_success, phaseA, initResult]
  · simp [provider_b_attempted, weather_success, phaseA, initResult]
  · simp only [provider_b_attempted, weather_success, phaseA,
      Bool.not_eq_true', Bool.and_eq_false_iff]
    cases c.temperature_2m <;> cases c.relative_humidity_2m <;>
      cases c.wind_speed_10m <;> simp

/-! ### Recommendation engine — `openai_helper.py`,
`generate_rule_based_recommendations` (lines 94–280).  The section heading of
each advice template is kept as a separate string literal (concatenated with
a parenthesisation making it explicit), so that section containment can be
proved structurally; the concatenation denotes exactly the source's
triple-quoted literals.  Apostrophes in the source text are written with the
escape \x27. -/

/-- Rounding to nearest with ties to even, used to model Python `.1f` float
formatting; all inputs used by the claims are exact one-decimal values, so
the tie rule never fires there. -/
def roundHalfEven (q : ℚ) : ℤ :=
  let f := ⌊q⌋
  let r := q - f
  if r < 1/2 then f
  else if 1/2 < r then f + 1
  else if f % 2 = 0 then f else f + 1

/-- Python `f"{x:.1f}"`. -/
def fmt1 (q : ℚ) : String :=
  let n := roundHalfEven (q * 10)
  let sign := if n < 0 then "-" else ""
  let m := n.natAbs
  sign ++ toString (m / 10) ++ "." ++ toString (m % 10)

/-- The seven temperature bands (lines 109–122). -/
inductive TempCategory
  | extreme_heat | high_heat | warm | moderate | cool | cold | extreme_cold
deriving DecidableEq

/-- The six AQI bands (lines 125–136). -/
inductive AqiCategory
  | good | moderate | unhealthy_sensitive | unhealthy | very_unhealthy | hazardous
deriving DecidableEq

/-- Temperature classification (lines 109–122). -/
def temp_category (temperature_c : ℚ) : TempCategory :=
  if temperature_c ≥ 35 then .extreme_heat
  else if temperature_c ≥ 30 then .high_heat
  else if temperature_c ≥ 25 then .warm
  else if temperature_c ≥ 15 then .moderate
  else if temperature_c ≥ 5 then .cool
  else if temperature_c ≥ -5 then .cold
  else .extreme_cold

/-- AQI classification (lines 125–136). -/
def aqi_category (aqi : ℚ) : AqiCategory :=
  if aqi ≤ 50 then .good
  else if aqi ≤ 100 then .moderate
  else if aqi ≤ 150 then .unhealthy_sensitive
  else if aqi ≤ 200 then .unhealthy
  else if aqi ≤ 300 then .very_unhealthy
  else .hazardous

/-- The `temp_recommendations` dict (lines 139–202). -/
def temp_recommendations : TempCategory → String
  | .extreme_heat => "\n" ++ ("## Temperature Precautions (Extreme Heat)" ++ "\n\n* **Stay hydrated**: Drink water constantly throughout the day, even if you don\x27t feel thirsty\n* **Avoid outdoor activities**: Especially between 10 AM and 4 PM\n* **Use cooling systems**: Stay in air-conditioned areas when possible\n* **Wear lightweight clothing**: Choose light-colored, loose-fitting clothes\n* **Take cool showers**: Consider multiple showers throughout the day\n* **Check on vulnerable people**: Elderly, children, and those with health conditions are at higher risk\n* **Never leave people or pets in parked vehicles**: Car temperatures can rise dangerously in minutes\n        ")
  | .high_heat => "\n" ++ ("## Temperature Precautions (High Heat)" ++ "\n\n* **Stay hydrated**: Drink at least 8-10 glasses of water daily\n* **Limit outdoor activities**: Consider indoor options during the hottest parts of the day\n* **Wear appropriate clothing**: Light-colored, loose-fitting clothes are best\n* **Use sun protection**: Apply sunscreen, wear a hat and sunglasses\n* **Take breaks**: If working outdoors, take frequent breaks in shaded areas\n        ")
  | .warm => "\n" ++ ("## Temperature Precautions (Warm Weather)" ++ "\n\n* **Stay hydrated**: Maintain regular water intake throughout the day\n* **Dress comfortably**: Light clothing appropriate for warm conditions\n* **Protect from sun**: Use sunscreen when spending extended time outdoors\n* **Enjoy outdoor activities**: The weather is suitable for most outdoor activities\n        ")
  | .moderate => "\n" ++ ("## Temperature Precautions (Moderate Weather)" ++ "\n\n* **Dress in layers**: Weather is comfortable but may change throughout the day\n* **Stay hydrated**: Continue regular water intake\n* **Enjoy outdoor activities**: Ideal conditions for most outdoor pursuits\n        ")
  | .cool => "\n" ++ ("## Temperature Precautions (Cool Weather)" ++ "\n\n* **Dress in layers**: Wear a light jacket or sweater\n* **Stay hydrated**: Even in cool weather, hydration remains important\n* **Suitable for activity**: Excellent conditions for physical activity outdoors\n        ")
  | .cold => "\n" ++ ("## Temperature Precautions (Cold Weather)" ++ "\n\n* **Dress warmly**: Wear insulated clothing, gloves, hat, and scarf\n* **Layer clothing**: Multiple layers provide better insulation\n* **Stay dry**: Wet clothing can lead to heat loss\n* **Maintain hydration**: Continue drinking water regularly\n* **Limit exposure**: Take breaks indoors when spending extended time outside\n        ")
  | .extreme_cold => "\n" ++ ("## Temperature Precautions (Extreme Cold)" ++ "\n\n* **Limit outdoor exposure**: Minimize time spent outdoors\n* **Dress in multiple layers**: Include thermal base layers and windproof outer layers\n* **Cover extremities**: Wear insulated gloves, thick socks, hat, and face covering\n* **Stay dry**: Avoid getting clothing wet, as this dramatically increases heat loss\n* **Watch for signs of hypothermia**: Shivering, confusion, drowsiness\n* **Check on vulnerable people**: Elderly and those with health conditions need extra attention\n* **Keep emergency supplies**: Have blankets and heating sources available\n        ")

/-- The `aqi_recommendations` dict (lines 205–258). -/
def aqi_recommendations : AqiCategory → String
  | .good => "\n" ++ ("## Air Quality Recommendations (Good)" ++ "\n\n* **Enjoy outdoor activities**: Air quality is good for everyone\n* **No restrictions needed**: All usual outdoor activities are appropriate\n* **Ventilate your home**: Opening windows is beneficial\n        ")
  | .moderate => "\n" ++ ("## Air Quality Recommendations (Moderate)" ++ "\n\n* **Generally safe for most**: Air quality is acceptable for most people\n* **Sensitive individuals**: People with unusual sensitivity to air pollution should consider reducing prolonged outdoor exertion\n* **Ventilation**: Still generally acceptable to ventilate home\n        ")
  | .unhealthy_sensitive => "\n" ++ ("## Air Quality Recommendations (Unhealthy for Sensitive Groups)" ++ "\n\n* **At-risk groups**: People with heart or lung disease, older adults, children, and teenagers should reduce prolonged or heavy outdoor exertion\n* **Everyone else**: It\x27s OK to be active outside, but take more breaks and do less intense activities\n* **Watch for symptoms**: Unusual coughing, shortness of breath, or fatigue\n* **Indoor air**: Consider using air purifiers indoors and keep windows closed\n        ")
  | .unhealthy => "\n" ++ ("## Air Quality Recommendations (Unhealthy)" ++ "\n\n* **Limit outdoor activities**: Everyone should reduce prolonged or heavy exertion\n* **Move activities indoors**: Consider rescheduling outdoor events\n* **Sensitive groups**: People with respiratory or heart conditions, children, and elderly should avoid all outdoor physical activities\n* **Use masks**: Consider wearing N95/KN95 masks when outdoors\n* **Indoor air quality**: Keep windows closed and use air purifiers if available\n        ")
  | .very_unhealthy => "\n" ++ ("## Air Quality Recommendations (Very Unhealthy)" ++ "\n\n* **Avoid outdoor activities**: Everyone should avoid all outdoor physical activities\n* **Stay indoors**: Keep windows and doors closed\n* **Use air purifiers**: Run HEPA air purifiers if available\n* **Wear masks**: Use N95/KN95 masks if you must go outside\n* **Check local advisories**: Follow any evacuation orders or health advisories\n* **Sensitive groups**: People with heart or respiratory conditions may need to take additional precautions\n        ")
  | .hazardous => "\n" ++ ("## Air Quality Recommendations (Hazardous)" ++ "\n\n* **Health emergency**: Air quality is at emergency conditions\n* **Stay indoors**: Remain indoors with windows and doors closed\n* **Limit all exertion**: Even indoor physical activity should be kept to a minimum\n* **Use air purifiers**: Run HEPA air purifiers continuously\n* **Wear masks**: Use N95/KN95 masks even indoors in buildings with poor filtration\n* **Consider relocation**: If possible, temporarily relocate to an area with better air quality\n* **Check for emergency alerts**: Follow all local emergency instructions\n        ")

/-- The general-advice footer of the final f-string (lines 270–278). -/
def general_recommendations : String :=
  "## General Health Recommendations\n\n* **Stay informed**: Monitor local weather and air quality forecasts\n* **Pre-existing conditions**: Consult your healthcare provider for personalized advice if you have medical conditions\n* **Adjust activities**: Plan your outdoor activities based on weather and air quality conditions\n* **Emergency preparedness**: Know the signs of heat-related illness and respiratory distress\n\n*These recommendations are general guidelines based on current conditions. Individual needs may vary.*\n    "

/-- `generate_rule_based_recommendations(location, temperature_c, aqi)`
(lines 94–280): classify, then assemble the f-string of lines 261–278.
The raw `{aqi}` interpolation is rendered by ℚ's `toString`. -/
def generate_rule_based_recommendations (location : String) (temperature_c aqi : ℚ) :
    String :=
  let temperature_f := temperature_c * 9 / 5 + 32
  ("\n# Health Recommendations for " ++ location ++ "\n\nCurrent conditions: **" ++
    fmt1 temperature_c ++ "°C (" ++ fmt1 temperature_f ++
    "°F)** with Air Quality Index of **" ++ toString aqi ++ "**\n\n") ++
  temp_recommendations (temp_category temperature_c) ++ "\n\n" ++
  aqi_recommendations (aqi_category aqi) ++ "\n\n" ++ general_recommendations

/-- `m` occurs as a contiguous substring of `s`. -/
def ContainsStr (s m : String) : Prop := m.data <:+: s.data

theorem containsStr_self_l (m t : String) : ContainsStr (m ++ t) m :=
  ⟨[], t.data, by simp⟩

theorem containsStr_appendl {s m : String} (h : ContainsStr s m) (t : String) :
    ContainsStr (s ++ t) m := by
  obtain ⟨u, v, huv⟩ := h
  exact ⟨u, v ++ t.data, by rw [String.data_append, ← huv]; simp⟩

theorem containsStr_appendr {s m : String} (h : ContainsStr s m) (t : String) :
    ContainsStr (t ++ s) m := by
  obtain ⟨u, v, huv⟩ := h
  exact ⟨t.data ++ u, v, by rw [String.data_append, ← huv]; simp⟩

theorem ne_empty_of_contains {s m : String} (h : ContainsStr s m) (hm : m ≠ "") :
    s ≠ "" := by
  intro hs
  subst hs
  obtain ⟨u, v, huv⟩ := h
  rcases List.append_eq_nil.mp huv with ⟨h1, -⟩
  rcases List.append_eq_nil.mp h1 with ⟨-, h2⟩
  exact hm (by cases m; simp_all)

/-- C8: on the rule-based fallback path (AI disabled), with temperature 40 °C
and AQI 250 generate_rule_based_recommendations classifies into the
extreme_heat and very_unhealthy bands, and the returned text contains the
extreme_heat temperature section heading and the very_unhealthy air-quality
section heading; in particular it is non-empty. -/
theorem C8_rule_based_sections :
    ContainsStr (generate_rule_based_recommendations "Test City" 40 250)
      "## Temperature Precautions (Extreme Heat)" ∧
    ContainsStr (generate_rule_based_recommendations "Test City" 40 250)
      "## Air Quality Recommendations (Very Unhealthy)" ∧
    generate_rule_based_recommendations "Test City" 40 250 ≠ "" := by
  have hcat : temp_category 40 = TempCategory.extreme_heat := by
    unfold temp_category; norm_num
  have hacat : aqi_category 250 = AqiCategory.very_unhealthy := by
    unfold aqi_category; norm_num
  have hs : generate_rule_based_recommendations "Test City" 40 250 =
      ("\n# Health Recommendations for " ++ "Test City" ++ "\n\nCurrent conditions: **" ++
        fmt1 40 ++ "°C (" ++ fmt1 (40 * 9 / 5 + 32) ++
        "°F)** with Air Quality Index of **" ++ toString (250 : ℚ) ++ "**\n\n") ++
      temp_recommendations TempCategory.extreme_heat ++ "\n\n" ++
      aqi_recommendations AqiCategory.very_unhealthy ++ "\n\n" ++
      general_recommendations := by
    simp only [generate_rule_based_recommendations]
    rw [hcat, hacat]
  have h1 : ContainsStr (temp_recommendations TempCategory.extreme_heat)
      "## Temperature Precautions (Extreme Heat)" :=
    containsStr_appendr (containsStr_self_l _ _) "\n"
  have h2 : ContainsStr (aqi_recommendations AqiCategory.very_unhealthy)
      "## Air Quality Recommendations (Very Unhealthy)" :=
    containsStr_appendr (containsStr_self_l _ _) "\n"
  rw [hs]
  refine ⟨?_, ?_, ?_⟩
  · exact containsStr_appendl (containsStr_appendl (containsStr_appendl
      (containsStr_appendl (containsStr_appendr h1 _) _) _) _) _
  · exact containsStr_appendl (containsStr_appendl (containsStr_appendr h2 _) _) _
  · exact ne_empty_of_contains
      (containsStr_appendl (containsStr_appendl (containsStr_appendl
        (containsStr_appendl (containsStr_appendr h1 _) _) _) _) _)
      (by decide)

/-! ### Subscriber store — `database.py`, `add_subscriber` (lines 118–151).
The `subscribers` table is modelled as a list of rows; the session's
`query(...).filter(email == ...).first()` becomes `List.find?`, and the ORM's
in-place mutation of the found row becomes an update of the first match. -/

/-- One row of the `subscribers` table (lines 37–49); timestamps are ℤ. -/
structure Subscriber where
  name : String
  email : String
  subscribed_at : ℤ
  is_active : Bool
  location_city : Option String
  location_state : Option String
  location_country : Option String
  last_email_sent : Option ℤ
deriving DecidableEq

/-- The `{"success": ..., "message": ...}` result dict. -/
structure OpResult where
  success : Bool
  message : String
deriving DecidableEq

/-- Update the first element satisfying `p` (the ORM mutates exactly the row
returned by `.first()`). -/
def updateFirst (p : Subscriber → Bool) (f : Subscriber → Subscriber) :
    List Subscriber → List Subscriber
  | [] => []
  | x :: xs => if p x then f x :: xs else x :: updateFirst p f xs

/-- The reactivation update (lines 127–131): set `is_active` and overwrite
name and location fields. -/
def reactivate (name : String) (city state country : Option String)
    (s : Subscriber) : Subscriber :=
  { s with
    is_active := true
    name := name
    location_city := city
    location_state := state
    location_country := country }

/-- `add_subscriber(name, email, city, state, country)` (lines 118–151) as a
state transition; `now` is the `datetime.utcnow` default for `subscribed_at`
of a newly created row. -/
def add_subscriber (db : List Subscriber) (name email : String)
    (city state country : Option String) (now : ℤ) : List Subscriber × OpResult :=
  match db.find? (fun s => s.email == email) with
  | some existing =>
      if ! existing.is_active then
        (updateFirst (fun s => s.email == email) (reactivate name city state country) db,
         ⟨true, "Subscription reactivated successfully!"⟩)
      else (db, ⟨false, "Email already subscribed"⟩)
  | none =>
      (db ++ [⟨name, email, now, true, city, state, country, none⟩],
       ⟨true, "Subscribed successfully!"⟩)

/-- `find?`/`updateFirst` interaction: the store splits around the first match,
and only that row is rewritten. -/
theorem updateFirst_spec (p : Subscriber → Bool) (f : Subscriber → Subscriber)
    (l : List Subscriber) (s : Subscriber) (h : l.find? p = some s) :
    ∃ l1 l2, l = l1 ++ s :: l2 ∧ (∀ r ∈ l1, p r = false) ∧
      updateFirst p f l = l1 ++ f s :: l2 := by
  induction l with
  | nil => simp at h
  | cons x xs ih =>
      by_cases hx : p x
      · rw [List.find?_cons_of_pos _ hx] at h
        injection h with h
        subst h
        exact ⟨[], xs, rfl, by simp, by simp [updateFirst, hx]⟩
      · rw [List.find?_cons_of_neg _ hx] at h
        obtain ⟨l1, l2, hl, hl1, hu⟩ := ih h
        exact ⟨x :: l1, l2, by simp [hl], by simpa [hx] using hl1,
               by simp [updateFirst, hx, hu]⟩

/-! ### Claim C9 — the subscriber store -/

/-- C9: if the email belongs to an existing row found by the store, then
(i) when that row is active, add_subscriber returns the failure result with
the "Email already subscribed" message and leaves the store unchanged, and
(ii) when that row is inactive, the result is the reactivation success
message and the new store rewrites exactly that row in place — is_active
becomes true, name/location fields are overwritten, email is preserved —
with no second row added (the length is unchanged). -/
theorem C9_add_subscriber (db : List Subscriber) (name email : String)
    (city state country : Option String) (now : ℤ) (s : Subscriber)
    (hfind : db.find? (fun r => r.email == email) = some s) :
    (s.is_active = true →
      add_subscriber db name email city state country now =
        (db, ⟨false, "Email already subscribed"⟩)) ∧
    (s.is_active = false →
      (add_subscriber db name email city state country now).2 =
        ⟨true, "Subscription reactivated successfully!"⟩ ∧
      ∃ l1 l2, db = l1 ++ s :: l2 ∧
        (add_subscriber db name email city state country now).1 =
          l1 ++ reactivate name city state country s :: l2 ∧
        (add_subscriber db name email city state country now).1.length = db.length ∧
        (reactivate name city state country s).is_active = true ∧
        (reactivate name city state country s).name = name ∧
        (reactivate name city state country s).location_city = city ∧
        (reactivate name city state country s).location_state = state ∧
        (reactivate name city state country s).location_country = country ∧
        (reactivate name city state country s).email = s.email) := by
  constructor
  · intro hact
    unfold add_subscriber
    rw [hfind]
    simp [hact]
  · intro hinact
    have hu := updateFirst_spec (fun r => r.email == email)
      (reactivate name city state country) db s hfind
    obtain ⟨l1, l2, hl, hl1, hup⟩ := hu
    have hstep : add_subscriber db name email city state country now =
        (updateFirst (fun r => r.email == email)
          (reactivate name city state country) db,
         ⟨true, "Subscription reactivated successfully!"⟩) := by
      simp [add_subscriber, hfind, hinact]
    rw [hstep]
    refine ⟨rfl, l1, l2, hl, hup, ?_, rfl, rfl, rfl, rfl, rfl, rfl⟩
    rw [hup, hl]
    simp

/-- C9 witness: a one-row store — re-subscribing an active "a@x.com" fails and
leaves the store unchanged; re-subscribing after unsubscription (is_active
false) reactivates in place. -/
theorem C9_witness :
    (add_subscriber [⟨"Alice", "a@x.com", 0, true, none, none, none, none⟩]
      "Bob" "a@x.com" (some "NY") none none 5 =
      ([⟨"Alice", "a@x.com", 0, true, none, none, none, none⟩],
       ⟨false, "Email already subscribed"⟩)) ∧
    ((add_subscriber [⟨"Alice", "a@x.com", 0, false, none, none, none, none⟩]
      "Bob" "a@x.com" (some "NY") none none 5).2 =
      ⟨true, "Subscription reactivated successfully!"⟩) := by
  constructor
  · exact (C9_add_subscriber [⟨"Alice", "a@x.com", 0, true, none, none, none, none⟩]
      "Bob" "a@x.com" (some "NY") none none 5
      ⟨"Alice", "a@x.com", 0, true, none, none, none, none⟩ rfl).1 rfl
  · exact ((C9_add_subscriber [⟨"Alice", "a@x.com", 0, false, none, none, none, none⟩]
      "Bob" "a@x.com" (some "NY") none none 5
      ⟨"Alice", "a@x.com", 0, false, none, none, none, none⟩ rfl).2 rfl).1

/-! ### Historical (last 24h) generator — `weather_api.py`,
`get_historical_data` (lines 245–553).  Time is modelled in hours on a
midnight-aligned epoch: `current_hour` (the clock truncated to the hour,
line 346) is an integer number of hours, the exact clock reading `nowTime`
is rational, and `timestamp.hour` becomes `⌊t⌋ % 24`.  Provider responses
and the `random.uniform` draws are oracle inputs; the pre-processing that
produces `current_temp`/`current_aqi` (lines 283–339) only yields the two
numbers, which are taken as inputs here. -/

/-- One item of the 5-day forecast response (lines 434–442): its `dt` time in
hours and, when the item has `main.temp`, that temperature. -/
structure ForecastItem where
  dt : ℚ
  temp : Option ℚ

/-- One item of the AQI responses (lines 452–464): `dt` in hours, its
`components` dict when present, and its coarse `main.aqi` (1–5) when
present. -/
structure AqiItem where
  dt : ℚ
  components : Option (List (String × ℚ))
  mainAqi : Option ℤ

/-- One entry of the returned dataset (lines 488–494, 500–505, 545–551);
the trailing current-point has no `hour` key, hence `Option`. -/
structure HistEntry where
  date : ℚ
  temperature : ℚ
  aqi : ℚ
  is_last_24h : Bool
  hour : Option ℤ

/-- `hourly_temp_deviations` (lines 413–418). -/
def hourly_temp_deviations : List ℚ :=
  [-2.5, -3.0, -3.2, -3.5, -3.0, -2.5,
   -1.5, -0.5, 1.0, 2.5, 4.0, 5.0,
   5.5, 5.8, 5.5, 5.0, 4.0, 3.0,
   1.5, 0.0, -1.0, -1.5, -2.0, -2.2]

/-- The forecast scan of lines 434–442: first item within 2 hours of the
target that carries a temperature (items in the window without `main.temp`
are skipped, not taken). -/
def findForecastTemp (ts : ℚ) : List ForecastItem → Option ℚ
  | [] => none
  | fc :: rest =>
      if |fc.dt - ts| * 3600 < 7200 ∧ fc.temp.isSome then fc.temp
      else findForecastTemp ts rest

/-- The AQI scan of lines 452–464: first item within 2 hours that carries
either a `components` dict (fed to the calculator) or a coarse 1–5 index
(scaled by 50). -/
def findAqi (ts : ℚ) : List AqiItem → Option ℚ
  | [] => none
  | item :: rest =>
      if |item.dt - ts| * 3600 < 7200 then
        match item.components with
        | some comps => some ((calculate_aqi_from_pollutants comps : ℤ) : ℚ)
        | none =>
            match item.mainAqi with
            | some a => some ((a * 50 : ℤ) : ℚ)
            | none => findAqi ts rest
      else findAqi ts rest

/-- The oracle environment of one `get_historical_data` run. -/
structure HistEnv where
  current_hour : ℤ
  nowTime : ℚ
  current_temp : ℚ
  current_aqi : ℚ
  forecast_data : List ForecastItem
  aqi_data : List AqiItem
  tempJitter : ℕ → ℚ
  aqiJitter : ℕ → ℚ

/-- One iteration of the main loop (lines 421–494) at `hour_offset = i`. -/
def histPoint (env : HistEnv) (i : ℕ) : HistEntry :=
  let timestamp : ℚ := (env.current_hour : ℚ) - (24 - (i : ℤ))
  let hour_of_day : ℤ := (env.current_hour - (24 - (i : ℤ))) % 24
  let temp : ℚ :=
    match findForecastTemp timestamp env.forecast_data with
    | some t => t
    | none =>
        env.current_temp + hourly_temp_deviations.getD hour_of_day.toNat 0 +
          env.tempJitter i
  let aqi0 : ℚ :=
    match findAqi timestamp env.aqi_data with
    | some a => a
    | none =>
        let aqi_factor : ℚ :=
          if 7 ≤ hour_of_day ∧ hour_of_day ≤ 9 then 1.2
          else if 16 ≤ hour_of_day ∧ hour_of_day ≤ 19 then 1.15
          else if 11 ≤ hour_of_day ∧ hour_of_day ≤ 15 then 0.9
          else if 22 ≤ hour_of_day ∧ hour_of_day ≤ 4 then 0.85
          else 1.0
        env.current_aqi * aqi_factor * env.aqiJitter i
  ⟨timestamp, temp, min 500 (max 1 aqi0), true, some hour_of_day⟩

/-- The normal path (lines 408–507): 24 generated hourly points followed by
the current-day point with `is_last_24h = False` (lines 500–505). -/
def get_historical_data_main (env : HistEnv) : List HistEntry :=
  ((List.range 24).map (histPoint env)) ++
    [⟨env.nowTime, env.current_temp, env.current_aqi, false, none⟩]

/-- One iteration of the `except`-path loop (lines 523–551) at `h`. -/
def histFallbackPoint (env : HistEnv) (h : ℕ) : HistEntry :=
  let hour_time : ℚ := env.nowTime - (24 - (h : ℤ))
  let hour_of_day : ℤ := ⌊hour_time⌋ % 24
  let temp_factor : ℚ :=
    if hour_of_day < 6 then -3
    else if hour_of_day < 14 then ((hour_of_day : ℚ) - 6) * 0.5
    else 4 - ((hour_of_day : ℚ) - 14) * 0.5
  let aqi_factor : ℚ :=
    if hour_of_day < 8 then 1.1
    else if hour_of_day < 17 then 0.9
    else if hour_of_day < 21 then 1.05
    else 0.95
  ⟨hour_time, env.current_temp + temp_factor,
    min 500 (max 1 (env.current_aqi * aqi_factor)), true, some hour_of_day⟩

/-- The degraded fallback dataset (lines 509–553): 24 hourly points and
*no* trailing current-day point. -/
def get_historical_data_fallback (env : HistEnv) : List HistEntry :=
  (List.range 24).map (histFallbackPoint env)

/-- `get_historical_data(lat, lon, start_date, end_date)` (lines 245–553):
`ok = true` is the normal run of the `try` body, `ok = false` the
`except Exception` path taken on an internal failure (e.g. a provider item
without a `dt` key). -/
def get_historical_data (env : HistEnv) (ok : Bool) : List HistEntry :=
  if ok then get_historical_data_main env else get_historical_data_fallback env

theorem histPoint_date (env : HistEnv) (i : ℕ) :
    (histPoint env i).date = (env.current_hour : ℚ) - (24 - ((i : ℤ) : ℚ)) := rfl

theorem histPoint_flag (env : HistEnv) (i : ℕ) :
    (histPoint env i).is_last_24h = true := rfl

theorem histFallbackPoint_date (env : HistEnv) (h : ℕ) :
    (histFallbackPoint env h).date = env.nowTime - (24 - ((h : ℤ) : ℚ)) := rfl

theorem histFallbackPoint_flag (env : HistEnv) (h : ℕ) :
    (histFallbackPoint env h).is_last_24h = true := rfl

/-- The 24 generated points of either path are in strictly increasing date
order. -/
theorem hist_map_chain (f : ℕ → HistEntry)
    (hf : ∀ a b : ℕ, a < b → (f a).date < (f b).date) :
    ((List.range 24).map f).Chain' (fun a b => a.date < b.date) := by
  apply List.Pairwise.chain'
  rw [List.pairwise_map]
  exact (List.pairwise_lt_range 24).imp (fun hab => hf _ _ hab)

/-! ### Claim C3 — the historical generator -/

/-- C3 counterexample: on the degraded fallback path (lines 509–553) the
returned dataset has 24 entries, all with `is_last_24h = True`, and *no*
trailing entry with `is_last_24h = False` — the `except` block never appends
the current-day point of lines 500–505. -/
theorem C3_counterexample :
    ((get_historical_data ⟨0, 0, 22, 50, [], [], fun _ => 0, fun _ => 0⟩ false).filter
      (fun e => !e.is_last_24h)).length = 0 ∧
    (get_historical_data ⟨0, 0, 22, 50, [], [], fun _ => 0, fun _ => 0⟩ false).length
      = 24 := by
  have hfall : get_historical_data ⟨0, 0, 22, 50, [], [], fun _ => 0, fun _ => 0⟩ false =
      (List.range 24).map
        (histFallbackPoint ⟨0, 0, 22, 50, [], [], fun _ => 0, fun _ => 0⟩) := rfl
  rw [hfall]
  constructor
  · rw [List.length_eq_zero, List.filter_eq_nil_iff]
    intro e he
    obtain ⟨i, -, rfl⟩ := List.mem_map.mp he
    simp [histFallbackPoint_flag]
  · simp

/-- C3 (amended): the normal path returns exactly 24 entries with
`is_last_24h = true` sorted chronologically (oldest hour first) followed by
exactly one trailing entry with `is_last_24h = false`; the degraded fallback
path taken on internal failure returns exactly 24 chronologically sorted
entries with `is_last_24h = true` and *no* trailing false entry. -/
theorem C3_shape (env : HistEnv) :
    ((get_historical_data env true).length = 25 ∧
     (∀ e ∈ (get_historical_data env true).take 24, e.is_last_24h = true) ∧
     ((get_historical_data env true).take 24).Chain' (fun a b => a.date < b.date) ∧
     (get_historical_data env true).drop 24 =
       [⟨env.nowTime, env.current_temp, env.current_aqi, false, none⟩]) ∧
    ((get_historical_data env false).length = 24 ∧
     (∀ e ∈ get_historical_data env false, e.is_last_24h = true) ∧
     (get_historical_data env false).Chain' (fun a b => a.date < b.date)) := by
  have hmain : get_historical_data env true =
      (List.range 24).map (histPoint env) ++
        [⟨env.nowTime, env.current_temp, env.current_aqi, false, none⟩] := rfl
  have hfall : get_historical_data env false =
      (List.range 24).map (histFallbackPoint env) := rfl
  have hlen : ((List.range 24).map (histPoint env)).length = 24 := by simp
  have htake : (get_historical_data env true).take 24 =
      (List.range 24).map (histPoint env) := by
    rw [hmain]; exact List.take_left' hlen
  refine ⟨⟨?_, ?_, ?_, ?_⟩, ?_, ?_, ?_⟩
  · rw [hmain]; simp
  · intro e he
    rw [htake] at he
    obtain ⟨i, -, rfl⟩ := List.mem_map.mp he
    exact histPoint_flag env i
  · rw [htake]
    refine hist_map_chain _ (fun a b hab => ?_)
    rw [histPoint_date, histPoint_date]
    have : ((a : ℤ) : ℚ) < ((b : ℤ) : ℚ) := by exact_mod_cast hab
    linarith
  · rw [hmain]; exact List.drop_left' hlen
  · rw [hfall]; simp
  · intro e he
    rw [hfall] at he
    obtain ⟨i, -, rfl⟩ := List.mem_map.mp he
    exact histFallbackPoint_flag env i
  · rw [hfall]
    refine hist_map_chain _ (fun a b hab => ?_)
    rw [histFallbackPoint_date, histFallbackPoint_date]
    have : ((a : ℤ) : ℚ) < ((b : ℤ) : ℚ) := by exact_mod_cast hab
    linarith

/-! ### Last-week aggregator — `weather_api.py`, `get_last_week_data`
(lines 555–739).  Dates are modelled as ℤ days on a fixed epoch (the code's
ISO-8601 date strings sort lexicographically exactly as these integers sort).
The archive response, the AQI-history response and the `random.uniform` draws
are oracle inputs; `random.uniform` streams are indexed by the date (or loop
position) at which the draw happens. -/

/-- The `daily` object of an Open-Meteo archive response (lines 597–602):
parallel arrays, possibly shorter than `time` and possibly containing nulls. -/
structure ArchiveDaily where
  time : List ℤ
  temperature_2m_min : List (Option ℚ)
  temperature_2m_max : List (Option ℚ)
  temperature_2m_mean : List (Option ℚ)
  relative_humidity_2m_mean : List (Option ℚ)

/-- Outcome of the archive fetch: `fail` = the request raised (the inner
`except` of lines 616–618 sets `daily_weather = {}`); `noDaily` = the request
succeeded but the response has no `daily`/`time` key, leaving `daily_weather`
undefined so that line 673 raises `NameError` into the *outer* `except`
(lines 725–739); `ok` = usable daily data. -/
inductive ArchiveOutcome
  | fail
  | noDaily
  | ok (d : ArchiveDaily)

/-- One item of the AQI history response (lines 646–660): its day and its
optional `components` / coarse `main.aqi` payloads. -/
structure WeekAqiItem where
  day : ℤ
  components : Option (List (String × ℚ))
  mainAqi : Option ℤ

/-- One output row (lines 608–615 / 711–718 / 730–737). -/
structure WeekEntry where
  date : ℤ
  temp_min : Option ℚ
  temp_max : Option ℚ
  temp_avg : Option ℚ
  humidity_avg : Option ℚ
  aqi_avg : Option ℚ
deriving DecidableEq

/-- The oracle environment of one `get_last_week_data` run. -/
structure WeekEnv where
  today : ℤ
  archive : ArchiveOutcome
  aqiKey : Bool
  aqiHist : Except Unit (List WeekAqiItem)
  current_temp : ℚ
  current_humidity : ℚ
  current_aqi : ℚ
  fillJitter : ℤ → ℚ
  fabTemp : ℤ → ℚ
  fabLow : ℤ → ℚ
  fabHigh : ℤ → ℚ
  fabHum : ℤ → ℚ
  fabAqi : ℤ → ℚ
  exMin : ℕ → ℚ
  exMax : ℕ → ℚ
  exAvg : ℕ → ℚ
  exHum : ℕ → ℚ
  exAqi : ℕ → ℚ

/-- `daily_weather[date_key] = {...}` (line 608): Python dict assignment —
replace in place if the key exists, else append. -/
def upsertDay (m : List (ℤ × WeekEntry)) (k : ℤ) (v : WeekEntry) :
    List (ℤ × WeekEntry) :=
  if m.any (fun p => p.1 == k) then
    m.map (fun p => if p.1 == k then (k, v) else p)
  else m ++ [(k, v)]

/-- One iteration of the `for i in range(len(days))` loop (lines 606–615). -/
def buildStep (d : ArchiveDaily) (m : List (ℤ × WeekEntry)) (p : ℕ × ℤ) :
    List (ℤ × WeekEntry) :=
  upsertDay m p.2
    ⟨p.2, d.temperature_2m_min.getD p.1 none, d.temperature_2m_max.getD p.1 none,
     d.temperature_2m_mean.getD p.1 none,
     d.relative_humidity_2m_mean.getD p.1 none, none⟩

/-- The `daily_weather` dict after lines 604–615. -/
def buildDailyWeather (d : ArchiveDaily) : List (ℤ × WeekEntry) :=
  d.time.enum.foldl (buildStep d) []

/-- `aqi` of one history item (lines 653–660): from `components` if present,
else 50 times the coarse 1–5 index, else nothing. -/
def weekAqiOf (it : WeekAqiItem) : Option ℚ :=
  match it.components with
  | some comps => some ((calculate_aqi_from_pollutants comps : ℤ) : ℚ)
  | none =>
      match it.mainAqi with
      | some a => some ((a * 50 : ℤ) : ℚ)
      | none => none

/-- The list `aqi_by_date[d]` (lines 644–660): values of the items of day `d`
in response order. -/
def aqiValuesFor (d : ℤ) (items : List WeekAqiItem) : List ℚ :=
  items.filterMap (fun it => if it.day = d then weekAqiOf it else none)

/-- Lines 662–665: average each day's AQI values into `daily_weather`; a day
with no values is left untouched. -/
def applyAqiHist (m : List (ℤ × WeekEntry)) (items : List WeekAqiItem) :
    List (ℤ × WeekEntry) :=
  m.map (fun p =>
    let vs := aqiValuesFor p.1 items
    if vs = [] then p
    else (p.1, { p.2 with aqi_avg := some (vs.sum / (vs.length : ℚ)) }))

/-- Lines 673–676: fill any remaining missing `aqi_avg` with the jittered,
clamped current AQI. -/
def fillMissingAqi (env : WeekEnv) (m : List (ℤ × WeekEntry)) :
    List (ℤ × WeekEntry) :=
  m.map (fun p =>
    match p.2.aqi_avg with
    | none =>
        (p.1,
         { p.2 with aqi_avg := some (max 10 (min 300 (env.current_aqi + env.fillJitter p.1))) })
    | some _ => p)

/-- One fabricated day of lines 697–718. -/
def fabEntry (env : WeekEnv) (date_key : ℤ) : WeekEntry :=
  let day_temp := env.current_temp + env.fabTemp date_key
  ⟨date_key, some (day_temp - env.fabLow date_key),
   some (day_temp + env.fabHigh date_key), some day_temp,
   some (max 10 (min 95 (env.current_humidity + env.fabHum date_key))),
   some (max 10 (min 300 (env.current_aqi + env.fabAqi date_key)))⟩

/-- Lines 683–718: the fabricated week used when the archive yielded nothing.
`past_week_dates` collects `today − 1 .. today − 7` and sorts ascending,
i.e. `today − 7 .. today − 1`, written here directly in sorted order. -/
def fabricateWeek (env : WeekEnv) : List WeekEntry :=
  ((List.range 7).map (fun (j : ℕ) => env.today - 7 + (j : ℤ))).map (fabEntry env)

/-- Lines 669–723 applied to the post-AQI `daily_weather`: fill missing AQI
values, flatten to a list, fabricate the week if it is empty, and sort by
date (line 721). -/
def lastWeekSort (env : WeekEnv) (dw : List (ℤ × WeekEntry)) : List WeekEntry :=
  let result := (fillMissingAqi env dw).map Prod.snd
  let result := if result = [] then fabricateWeek env else result
  result.insertionSort (fun a b => a.date ≤ b.date)

/-- The body of the outer `try` from line 620 on, given the `daily_weather`
dict produced by the archive phase: apply the AQI history when its fetch
succeeded (lines 620–667), then fill, fabricate if empty and sort. -/
def lastWeekFromDaily (env : WeekEnv) (dw0 : List (ℤ × WeekEntry)) :
    List WeekEntry :=
  match (if env.aqiKey then env.aqiHist else .error ()) with
  | .ok items => lastWeekSort env (applyAqiHist dw0 items)
  | .error _ => lastWeekSort env dw0

/-- The outer `except Exception` fallback (lines 725–739): days
`today − 1 .. today − 7`, in that (descending) order, unsorted. -/
def exceptionWeek (env : WeekEnv) : List WeekEntry :=
  (List.range 7).map (fun (j : ℕ) =>
    ⟨env.today - ((j : ℤ) + 1),
     some (15 + env.exMin j), some (25 + env.exMax j), some (20 + env.exAvg j),
     some (50 + env.exHum j), some (50 + env.exAqi j)⟩)

/-- `get_last_week_data(lat, lon)` (lines 555–739). -/
def get_last_week_data (env : WeekEnv) : List WeekEntry :=
  match env.archive with
  | .noDaily => exceptionWeek env
  | .fail => lastWeekFromDaily env []
  | .ok d => lastWeekFromDaily env (buildDailyWeather d)

instance : IsTotal WeekEntry (fun a b => a.date ≤ b.date) :=
  ⟨fun a b => le_total a.date b.date⟩

instance : IsTrans WeekEntry (fun a b => a.date ≤ b.date) :=
  ⟨fun _ _ _ hab hbc => le_trans hab hbc⟩

theorem keys_upsertDay_pos {m : List (ℤ × WeekEntry)} {k : ℤ} (v : WeekEntry)
    (h : m.any (fun p => p.1 == k) = true) :
    (upsertDay m k v).map Prod.fst = m.map Prod.fst := by
  unfold upsertDay
  rw [if_pos h, List.map_map]
  apply List.map_congr_left
  intro p hp
  by_cases hpk : p.1 = k
  · simp [hpk]
  · simp [hpk]

theorem keys_upsertDay_neg {m : List (ℤ × WeekEntry)} {k : ℤ} (v : WeekEntry)
    (h : ¬ m.any (fun p => p.1 == k) = true) :
    (upsertDay m k v).map Prod.fst = m.map Prod.fst ++ [k] := by
  unfold upsertDay
  rw [if_neg h, List.map_append]
  rfl

theorem mem_keys_upsertDay (m : List (ℤ × WeekEntry)) (k : ℤ) (v : WeekEntry) (x : ℤ) :
    x ∈ (upsertDay m k v).map Prod.fst ↔ x ∈ m.map Prod.fst ∨ x = k := by
  by_cases h : m.any (fun p => p.1 == k) = true
  · rw [keys_upsertDay_pos v h]
    have hk : k ∈ m.map Prod.fst := by
      obtain ⟨p, hp, hpk⟩ := List.any_eq_true.mp h
      exact List.mem_map.mpr ⟨p, hp, by simpa using beq_iff_eq.mp hpk⟩
    constructor
    · exact Or.inl
    · rintro (hx | rfl)
      · exact hx
      · exact hk
  · rw [keys_upsertDay_neg v h]
    simp

theorem nodup_keys_upsertDay {m : List (ℤ × WeekEntry)} (k : ℤ) (v : WeekEntry)
    (h : (m.map Prod.fst).Nodup) : ((upsertDay m k v).map Prod.fst).Nodup := by
  by_cases ha : m.any (fun p => p.1 == k) = true
  · rw [keys_upsertDay_pos v ha]; exact h
  · rw [keys_upsertDay_neg v ha]
    have hk : k ∉ m.map Prod.fst := by
      intro hmem
      obtain ⟨p, hp, hpk⟩ := List.mem_map.mp hmem
      exact ha (List.any_eq_true.mpr ⟨p, hp, by simp [hpk]⟩)
    simp [List.nodup_append, h, hk]

theorem date_upsertDay {m : List (ℤ × WeekEntry)} {k : ℤ} {v : WeekEntry}
    (hm : ∀ p ∈ m, (p.2).date = p.1) (hv : v.date = k) :
    ∀ p ∈ upsertDay m k v, (p.2).date = p.1 := by
  intro p hp
  unfold upsertDay at hp
  by_cases h : m.any (fun q => q.1 == k) = true
  · rw [if_pos h] at hp
    obtain ⟨q, hq, rfl⟩ := List.mem_map.mp hp
    by_cases hqk : q.1 = k
    · simp [hqk, hv]
    · simp only [beq_iff_eq, hqk, if_false]
      exact hm q hq
  · rw [if_neg h] at hp
    rcases List.mem_append.mp hp with h1 | h2
    · exact hm p h1
    · rw [List.mem_singleton.mp h2]
      exact hv

/-- Invariants of the `daily_weather`-building fold: distinct keys, each
value's date equals its key, and the key set is the set of processed days. -/
theorem build_inv (d : ArchiveDaily) (l : List (ℕ × ℤ)) (m0 : List (ℤ × WeekEntry))
    (h1 : (m0.map Prod.fst).Nodup) (h2 : ∀ p ∈ m0, (p.2).date = p.1) :
    ((l.foldl (buildStep d) m0).map Prod.fst).Nodup ∧
    (∀ p ∈ l.foldl (buildStep d) m0, (p.2).date = p.1) ∧
    (∀ x, x ∈ (l.foldl (buildStep d) m0).map Prod.fst ↔
      x ∈ m0.map Prod.fst ∨ x ∈ l.map Prod.snd) := by
  induction l generalizing m0 with
  | nil => exact ⟨h1, h2, by simp⟩
  | cons q rest ih =>
      have h1' : (((buildStep d) m0 q).map Prod.fst).Nodup :=
        nodup_keys_upsertDay q.2 _ h1
      have h2' : ∀ p ∈ (buildStep d) m0 q, (p.2).date = p.1 :=
        date_upsertDay h2 rfl
      obtain ⟨ha, hb, hc⟩ := ih _ h1' h2'
      refine ⟨ha, hb, fun x => ?_⟩
      rw [List.foldl_cons, hc x]
      unfold buildStep
      rw [mem_keys_upsertDay]
      simp only [List.map_cons, List.mem_cons]
      tauto

theorem applyAqiHist_keys (m : List (ℤ × WeekEntry)) (items : List WeekAqiItem) :
    (applyAqiHist m items).map Prod.fst = m.map Prod.fst := by
  unfold applyAqiHist
  rw [List.map_map]
  apply List.map_congr_left
  intro p hp
  by_cases h : aqiValuesFor p.1 items = [] <;> simp [h]

theorem applyAqiHist_date {m : List (ℤ × WeekEntry)} (items : List WeekAqiItem)
    (hm : ∀ p ∈ m, (p.2).date = p.1) :
    ∀ p ∈ applyAqiHist m items, (p.2).date = p.1 := by
  intro p hp
  unfold applyAqiHist at hp
  obtain ⟨q, hq, rfl⟩ := List.mem_map.mp hp
  by_cases h : aqiValuesFor q.1 items = [] <;> simp [h]
  · exact hm q hq
  · exact hm q hq

theorem fillMissingAqi_keys (env : WeekEnv) (m : List (ℤ × WeekEntry)) :
    (fillMissingAqi env m).map Prod.fst = m.map Prod.fst := by
  unfold fillMissingAqi
  rw [List.map_map]
  apply List.map_congr_left
  intro p hp
  cases h : (p.2).aqi_avg <;> simp [h]

theorem fillMissingAqi_date (env : WeekEnv) {m : List (ℤ × WeekEntry)}
    (hm : ∀ p ∈ m, (p.2).date = p.1) :
    ∀ p ∈ fillMissingAqi env m, (p.2).date = p.1 := by
  intro p hp
  unfold fillMissingAqi at hp
  obtain ⟨q, hq, rfl⟩ := List.mem_map.mp hp
  cases h : (q.2).aqi_avg <;> simp [h]
  · exact hm q hq
  · exact hm q hq

theorem snd_dates {m : List (ℤ × WeekEntry)} (hm : ∀ p ∈ m, (p.2).date = p.1) :
    (m.map Prod.snd).map (fun e => e.date) = m.map Prod.fst := by
  rw [List.map_map]
  exact List.map_congr_left (fun p hp => hm p hp)

/-- A list of entries sorted by date with pairwise-distinct dates is strictly
increasing in date. -/
theorem chain_lt_of_sorted_nodup (l : List WeekEntry)
    (hs : l.Pairwise (fun a b => a.date ≤ b.date))
    (hn : (l.map (fun e => e.date)).Nodup) :
    l.Chain' (fun a b => a.date < b.date) := by
  have hne : l.Pairwise (fun a b => a.date ≠ b.date) :=
    List.pairwise_map.mp hn
  exact ((hs.and hne).imp (fun h => lt_of_le_of_ne h.1 h.2)).chain'

/-- Map over `range n` of a strictly monotone entry generator is a strict
date chain. -/
theorem week_map_chain {R : WeekEntry → WeekEntry → Prop} (n : ℕ) (f : ℕ → WeekEntry)
    (hf : ∀ a b : ℕ, a < b → R (f a) (f b)) :
    ((List.range n).map f).Chain' R := by
  apply List.Pairwise.chain'
  rw [List.pairwise_map]
  exact (List.pairwise_lt_range n).imp (fun hab => hf _ _ hab)

theorem fabEntry_date (env : WeekEnv) (d : ℤ) : (fabEntry env d).date = d := rfl

theorem fabricateWeek_eq (env : WeekEnv) :
    fabricateWeek env =
      (List.range 7).map (fun (j : ℕ) => fabEntry env (env.today - 7 + (j : ℤ))) := by
  unfold fabricateWeek
  rw [List.map_map]
  rfl

/-- Map over `range n` of a monotone entry generator is pairwise related. -/
theorem week_map_pairwise {R : WeekEntry → WeekEntry → Prop} (n : ℕ) (f : ℕ → WeekEntry)
    (hf : ∀ a b : ℕ, a < b → R (f a) (f b)) :
    ((List.range n).map f).Pairwise R := by
  rw [List.pairwise_map]
  exact (List.pairwise_lt_range n).imp (fun hab => hf _ _ hab)

theorem fabricateWeek_sorted (env : WeekEnv) :
    List.Sorted (fun a b => a.date ≤ b.date) (fabricateWeek env) := by
  rw [fabricateWeek_eq]
  show List.Pairwise _ _
  refine week_map_pairwise 7 _ (fun a b hab => ?_)
  rw [fabEntry_date, fabEntry_date]
  have : ((a : ℤ) : ℤ) ≤ b := by exact_mod_cast le_of_lt hab
  omega

theorem lastWeekSort_nil (env : WeekEnv) : lastWeekSort env [] = fabricateWeek env := by
  unfold lastWeekSort
  simp only [fillMissingAqi, List.map_nil, if_pos]
  exact (fabricateWeek_sorted env).insertionSort_eq

/-- Shape of the sorted output when the dict is non-empty: strictly
increasing dates, and the date set is exactly the dict's key set. -/
theorem lastWeekSort_spec (env : WeekEnv) (dw1 : List (ℤ × WeekEntry))
    (hnil : dw1 ≠ []) (hnodup : (dw1.map Prod.fst).Nodup)
    (hdate : ∀ p ∈ dw1, (p.2).date = p.1) :
    (lastWeekSort env dw1).Chain' (fun a b => a.date < b.date) ∧
    (∀ e ∈ lastWeekSort env dw1, e.date ∈ dw1.map Prod.fst) ∧
    (∀ k ∈ dw1.map Prod.fst, ∃ e ∈ lastWeekSort env dw1, e.date = k) := by
  have hk2 := fillMissingAqi_keys env dw1
  have hd2 := fillMissingAqi_date env hdate
  have hneq : (fillMissingAqi env dw1).map Prod.snd ≠ [] := by
    intro h
    exact hnil (by simpa [fillMissingAqi] using List.map_eq_nil_iff.mp h)
  have hout : lastWeekSort env dw1 =
      ((fillMissingAqi env dw1).map Prod.snd).insertionSort
        (fun a b => a.date ≤ b.date) := by
    simp only [lastWeekSort]
    rw [if_neg hneq]
  have hperm : List.Perm (lastWeekSort env dw1)
      ((fillMissingAqi env dw1).map Prod.snd) := by
    rw [hout]; exact List.perm_insertionSort _ _
  have hsorted : List.Sorted (fun a b => a.date ≤ b.date) (lastWeekSort env dw1) := by
    rw [hout]; exact List.sorted_insertionSort _ _
  have hdates : ((fillMissingAqi env dw1).map Prod.snd).map (fun e => e.date) =
      dw1.map Prod.fst := by
    rw [snd_dates hd2, hk2]
  have hnodup2 : ((lastWeekSort env dw1).map (fun e => e.date)).Nodup := by
    refine ((hperm.map (fun e => e.date)).nodup_iff).mpr ?_
    rw [hdates]
    exact hnodup
  refine ⟨chain_lt_of_sorted_nodup _ hsorted hnodup2, ?_, ?_⟩
  · intro e he
    have h1 : e ∈ (fillMissingAqi env dw1).map Prod.snd := hperm.mem_iff.mp he
    have h2 : e.date ∈ ((fillMissingAqi env dw1).map Prod.snd).map (fun e => e.date) :=
      List.mem_map_of_mem _ h1
    rwa [hdates] at h2
  · intro k hk
    rw [← hdates] at hk
    obtain ⟨e, he, rfl⟩ := List.mem_map.mp hk
    exact ⟨e, hperm.mem_iff.mpr he, rfl⟩

theorem buildDailyWeather_inv (d : ArchiveDaily) :
    ((buildDailyWeather d).map Prod.fst).Nodup ∧
    (∀ p ∈ buildDailyWeather d, (p.2).date = p.1) ∧
    (∀ x, x ∈ (buildDailyWeather d).map Prod.fst ↔ x ∈ d.time) := by
  have h := build_inv d d.time.enum [] (by simp) (by simp)
  refine ⟨h.1, h.2.1, fun x => ?_⟩
  rw [show buildDailyWeather d = d.time.enum.foldl (buildStep d) [] from rfl, h.2.2 x]
  simp [List.enum_map_snd]

/-! ### Claim C5 — the last-week aggregator -/

/-- C5 counterexample: on the outer-exception fallback path (lines 725–739)
the 7 fabricated entries are listed newest-first (today − 1 down to
today − 7) and never sorted, so the dates are strictly *decreasing*, not
increasing as claimed. -/
theorem C5_counterexample :
    (get_last_week_data ⟨0, .noDaily, false, .error (), 22, 50, 50, fun _ => 0,
      fun _ => 0, fun _ => 0, fun _ => 0, fun _ => 0, fun _ => 0, fun _ => 0,
      fun _ => 0, fun _ => 0, fun _ => 0, fun _ => 0⟩).length = 7 ∧
    ¬ (get_last_week_data ⟨0, .noDaily, false, .error (), 22, 50, 50, fun _ => 0,
      fun _ => 0, fun _ => 0, fun _ => 0, fun _ => 0, fun _ => 0, fun _ => 0,
      fun _ => 0, fun _ => 0, fun _ => 0, fun _ => 0⟩).Chain'
      (fun a b => a.date < b.date) := by
  constructor
  · simp [get_last_week_data, exceptionWeek]
  · intro hch
    have h1 := (List.chain'_cons.mp (by
      simpa only [get_last_week_data, exceptionWeek,
        show (List.range 7) = [0, 1, 2, 3, 4, 5, 6] from rfl,
        List.map_cons, List.map_nil] using hch)).1
    norm_num at h1

/-- When the `daily_weather` dict is empty the function returns the
fabricated week: exactly 7 entries with dates `today − 7 .. today − 1`,
strictly increasing. -/
theorem lastWeekFromDaily_nil_shape (env : WeekEnv) :
    (lastWeekFromDaily env []).length = 7 ∧
    (∀ e ∈ lastWeekFromDaily env [],
      env.today - 7 ≤ e.date ∧ e.date ≤ env.today - 1) ∧
    (lastWeekFromDaily env []).Chain' (fun a b => a.date < b.date) := by
  have h2 : lastWeekFromDaily env [] = fabricateWeek env := by
    unfold lastWeekFromDaily
    cases hc : (if env.aqiKey then env.aqiHist else Except.error ()) with
    | error e => exact lastWeekSort_nil env
    | ok items => exact lastWeekSort_nil env
  rw [h2, fabricateWeek_eq]
  refine ⟨by simp, fun e he => ?_, ?_⟩
  · obtain ⟨j, hj, rfl⟩ := List.mem_map.mp he
    have hj7 : j < 7 := List.mem_range.mp hj
    rw [fabEntry_date]
    omega
  · refine week_map_chain 7 _ (fun a b hab => ?_)
    rw [fabEntry_date, fabEntry_date]
    omega

/-- C5 (amended), split by path — (i) on the outer-exception fallback the
output has exactly 7 entries with dates in [today−7, today−1] (so not today)
but strictly *decreasing* (newest first, never sorted); (ii) when the archive
yields no usable data — the request fails, or it succeeds with an empty day
list — the output is exactly 7 fabricated entries with dates in
[today−7, today−1] (so not today), strictly increasing; (iii) when the
archive returns a non-empty day list, the entries are in strictly increasing
date order and their dates are exactly the distinct dates of the archive
response — the code does not validate them against the window, so the count
is 7, and today excluded, only when the archive reports such days. -/
theorem C5_shape (env : WeekEnv) :
    (env.archive = ArchiveOutcome.noDaily →
      (get_last_week_data env).length = 7 ∧
      (∀ e ∈ get_last_week_data env,
        env.today - 7 ≤ e.date ∧ e.date ≤ env.today - 1) ∧
      (get_last_week_data env).Chain' (fun a b => b.date < a.date)) ∧
    ((env.archive = ArchiveOutcome.fail ∨
      ∃ d : ArchiveDaily, env.archive = ArchiveOutcome.ok d ∧ d.time = []) →
      (get_last_week_data env).length = 7 ∧
      (∀ e ∈ get_last_week_data env,
        env.today - 7 ≤ e.date ∧ e.date ≤ env.today - 1) ∧
      (get_last_week_data env).Chain' (fun a b => a.date < b.date)) ∧
    (∀ d : ArchiveDaily, env.archive = ArchiveOutcome.ok d → d.time ≠ [] →
      (get_last_week_data env).Chain' (fun a b => a.date < b.date) ∧
      (∀ e ∈ get_last_week_data env, e.date ∈ d.time) ∧
      (∀ k ∈ d.time, ∃ e ∈ get_last_week_data env, e.date = k)) := by
  refine ⟨fun h => ?_, fun h => ?_, fun d h htime => ?_⟩
  · -- outer-exception path
    have hre : get_last_week_data env = exceptionWeek env := by
      unfold get_last_week_data
      rw [h]
    rw [hre]
    refine ⟨by simp [exceptionWeek], fun e he => ?_, ?_⟩
    · obtain ⟨j, hj, rfl⟩ := List.mem_map.mp (by
        simpa only [exceptionWeek] using he)
      have hj7 : j < 7 := List.mem_range.mp hj
      dsimp only
      omega
    · unfold exceptionWeek
      refine week_map_chain 7 _ (fun a b hab => ?_)
      dsimp only
      omega
  · -- archive yielded no usable data: fabricated week
    have hre : get_last_week_data env = lastWeekFromDaily env [] := by
      rcases h with h | ⟨d, h, ht⟩
      · unfold get_last_week_data
        rw [h]
      · have hbd : buildDailyWeather d = [] := by
          rw [show buildDailyWeather d = d.time.enum.foldl (buildStep d) [] from rfl, ht]
          rfl
        unfold get_last_week_data
        rw [h]
        show lastWeekFromDaily env (buildDailyWeather d) = lastWeekFromDaily env []
        rw [hbd]
    rw [hre]
    exact lastWeekFromDaily_nil_shape env
  · -- archive data path
    have hinv := buildDailyWeather_inv d
    have hne : buildDailyWeather d ≠ [] := by
      intro h0
      obtain ⟨t, ht⟩ := List.exists_mem_of_ne_nil d.time htime
      have := (hinv.2.2 t).mpr ht
      rw [h0] at this
      simp at this
    have hre : get_last_week_data env = lastWeekFromDaily env (buildDailyWeather d) := by
      unfold get_last_week_data
      rw [h]
    have key : ∃ dw1, lastWeekFromDaily env (buildDailyWeather d) = lastWeekSort env dw1 ∧
        dw1.map Prod.fst = (buildDailyWeather d).map Prod.fst ∧
        (∀ p ∈ dw1, (p.2).date = p.1) ∧ dw1 ≠ [] := by
      unfold lastWeekFromDaily
      cases hc : (if env.aqiKey then env.aqiHist else Except.error ()) with
      | error e => exact ⟨buildDailyWeather d, rfl, rfl, hinv.2.1, hne⟩
      | ok items =>
          refine ⟨applyAqiHist (buildDailyWeather d) items, rfl,
            applyAqiHist_keys _ _, applyAqiHist_date _ hinv.2.1, fun h0 => ?_⟩
          exact hne (by simpa [applyAqiHist] using List.map_eq_nil_iff.mp h0)
    obtain ⟨dw1, he, hkeys, hdate, hnil⟩ := key
    have hspec := lastWeekSort_spec env dw1 hnil (by rw [hkeys]; exact hinv.1) hdate
    rw [hre, he]
    refine ⟨hspec.1, fun e hee => ?_, fun k hk => ?_⟩
    · have hmem := hspec.2.1 e hee
      rw [hkeys] at hmem
      exact (hinv.2.2 e.date).mp hmem
    · exact hspec.2.2 k (by rw [hkeys]; exact (hinv.2.2 k).mpr hk)

/-- C5 witness: the paths at concrete environments — the exception path, the
failed-archive path and the empty-day-list path each give 7 entries, and with
an archive reporting the single day 5 the output contains an entry dated 5. -/
theorem C5_witness :
    (get_last_week_data ⟨0, .noDaily, false, .error (), 22, 50, 50, fun _ => 0,
      fun _ => 0, fun _ => 0, fun _ => 0, fun _ => 0, fun _ => 0, fun _ => 0,
      fun _ => 0, fun _ => 0, fun _ => 0, fun _ => 0⟩).length = 7 ∧
    (get_last_week_data ⟨0, .fail, false, .error (), 22, 50, 50, fun _ => 0,
      fun _ => 0, fun _ => 0, fun _ => 0, fun _ => 0, fun _ => 0, fun _ => 0,
      fun _ => 0, fun _ => 0, fun _ => 0, fun _ => 0⟩).length = 7 ∧
    (get_last_week_data ⟨0, .ok ⟨[], [], [], [], []⟩, false, .error (), 22, 50,
      50, fun _ => 0, fun _ => 0, fun _ => 0, fun _ => 0, fun _ => 0,
      fun _ => 0, fun _ => 0, fun _ => 0, fun _ => 0, fun _ => 0,
      fun _ => 0⟩).length = 7 ∧
    (∃ e ∈ get_last_week_data ⟨0, .ok ⟨[5], [], [], [], []⟩, false, .error (),
      22, 50, 50, fun _ => 0, fun _ => 0, fun _ => 0, fun _ => 0, fun _ => 0,
      fun _ => 0, fun _ => 0, fun _ => 0, fun _ => 0, fun _ => 0, fun _ => 0⟩,
      e.date = 5) := by
  refine ⟨((C5_shape _).1 rfl).1, ((C5_shape _).2.1 (Or.inl rfl)).1,
    ((C5_shape _).2.1 (Or.inr ⟨⟨[], [], [], [], []⟩, rfl, rfl⟩)).1, ?_⟩
  exact ((C5_shape _).2.2 ⟨[5], [], [], [], []⟩ rfl (by simp)).2.2 5 (by simp)
